import Mathlib

/-!
# Verification of the StreamForge comment-store procedures

This file gives a shallow embedding, in Lean 4, of the server-side stored
procedures of the repository's comment subsystem, translated from
`supabase/migrations/20250813043841_wispy_bridge.sql` and
`supabase/migrations/20250814034445_soft_queen.sql`, together with the
table-level constraints those migrations declare, and proves the behavioural
properties stated about them.

Modelling conventions:

* `uuid` values are modelled as `Nat`; `timestamptz` values as `Nat`
  instants.  `gen_random_uuid()` and `now()` are nondeterministic inputs of
  the database engine, so each mutating procedure takes the freshly
  generated id and the current clock value as extra oracle parameters.
  Generated uuids are assumed fresh (collision probability is treated as
  zero, as the schema's `gen_random_uuid()` defaults intend); the
  reachable-state relation below records that freshness assumption.
* Nullable SQL values are `Option`; a raised exception is `Except.error`
  carrying the message, and a procedure that raises leaves the store as it
  was (the `Except.error` result carries no store).
* SQL `trim(x)` is `btrim` with the default character set, which removes
  only space characters from both ends; `sqlTrim` below reproduces that
  (Lean's own `String.trim` would also strip tabs and newlines, which
  Postgres does not).
* The tables are lists of rows; SQL `UPDATE ... WHERE` is a `List.map`
  touching the matching rows, `DELETE ... WHERE` is a `List.filter`,
  `INSERT` an append. `ORDER BY created_at DESC` is realised by a stable
  insertion sort on the decidable total relation `newestFirst`; ties are
  left in an unspecified order by SQL, and the stable sort is one
  admissible refinement of it.
* The `series` and `episodes` tables are created by an earlier migration
  that is not part of the repository snapshot.  Modelled from the spec:
  a series has an identity, a title, a status (`ongoing`/`completed`,
  added by the second migration in the snapshot) and an `updated_at`
  timestamp; an episode has an identity and belongs to exactly one series.
  Only those fields are consulted by the procedures under proof.
* The `trg_comments_updated_at` trigger calls `update_updated_at_column`,
  defined in the missing earlier migration; per its name and the spec it
  sets `updated_at := now()` on each update, which coincides with what the
  updating statements of `toggle_comment_like` already assign, so the
  trigger needs no separate model.
-/

/-- SQL `trim(x)`: remove space characters (only) from both ends of a
string, as Postgres `btrim` with its default second argument does. -/
def sqlTrim (s : String) : String :=
  ⟨((s.data.dropWhile (· == ' ')).reverse.dropWhile (· == ' ')).reverse⟩

/-- Characters admitted in the local part of the email check constraint:
the class `[A-Za-z0-9._%+-]`. -/
def isLocalChar (c : Char) : Bool :=
  c.isAlpha || c.isDigit || c == '.' || c == '_' || c == '%' || c == '+' || c == '-'

/-- Characters admitted in the domain part of the email check constraint:
the class `[A-Za-z0-9.-]`. -/
def isDomainChar (c : Char) : Bool :=
  c.isAlpha || c.isDigit || c == '.' || c == '-'

/-- Split a character list around its first `'@'`, if any. -/
def splitFirstAt (cs : List Char) : Option (List Char × List Char) :=
  match cs with
  | [] => none
  | c :: rest =>
    if c == '@' then some ([], rest)
    else (splitFirstAt rest).map (fun p => (c :: p.1, p.2))

/-- Split a character list around its last `'.'`, if any. -/
def splitLastDot (cs : List Char) : Option (List Char × List Char) :=
  match cs with
  | [] => none
  | c :: rest =>
    match splitLastDot rest with
    | some p => some (c :: p.1, p.2)
    | none => if c == '.' then some ([], rest) else none

/-- The email check constraint of the `comments` table: the stored email
must match `'^[A-Za-z0-9._%+-]+@[A-Za-z0-9.-]+\.[A-Za-z]{2,}$'` (the `~*`
case flag is immaterial because the classes already contain both cases).
A matching string decomposes as a nonempty local part, one `'@'` (neither
class admits `'@'`, so a match has exactly one), a nonempty domain part and
a final all-letter label of length at least two after the last dot (any
matching decomposition must use the last dot, because everything after the
chosen dot has to be a letter). -/
def emailMatch (s : String) : Bool :=
  match splitFirstAt s.data with
  | none => false
  | some (l, r) =>
    if r.contains '@' then false
    else
      !l.isEmpty && l.all isLocalChar &&
      (match splitLastDot r with
       | some (m, t) =>
         !m.isEmpty && m.all isDomainChar && t.all Char.isAlpha && decide (2 ≤ t.length)
       | none => false)

/-- The `series_status` enum of the second migration. -/
inductive SeriesStatus where
  | ongoing
  | completed
deriving DecidableEq

/-- A row of the `series` table.  Modelled from the spec: the creating
migration is absent from the snapshot; the procedures under proof use the
identity, the `status` column added by `20250814034445_soft_queen.sql` and
the `updated_at` timestamp, and a title stands in for the remaining
descriptive columns. -/
structure SeriesRow where
  id : Nat
  title : String
  status : SeriesStatus
  updated_at : Nat
deriving DecidableEq

/-- A row of the `episodes` table.  Modelled from the spec: the creating
migration is absent from the snapshot; the procedures consult only the
identity and the owning series. -/
structure EpisodeRow where
  id : Nat
  series_id : Nat
deriving DecidableEq

/-- A row of the `comments` table (migration `20250813043841`, lines
35-46). -/
structure CommentRow where
  id : Nat
  content : String
  author_name : String
  author_email : Option String
  series_id : Nat
  episode_id : Option Nat
  parent_id : Option Nat
  likes_count : Int
  created_at : Nat
  updated_at : Nat
deriving DecidableEq

/-- A row of the `comment_likes` table (migration `20250813043841`, lines
49-55). -/
structure CommentLikeRow where
  id : Nat
  comment_id : Nat
  user_identifier : String
  created_at : Nat
deriving DecidableEq

/-- The persistent store: the four tables the procedures read and write. -/
structure Store where
  series : List SeriesRow
  episodes : List EpisodeRow
  comments : List CommentRow
  comment_likes : List CommentLikeRow
deriving DecidableEq

/-- The `WHERE comment_id = p_comment_id AND user_identifier =
p_user_identifier` condition used by `toggle_comment_like`. -/
def likeMatches (cid : Nat) (uid : String) (l : CommentLikeRow) : Bool :=
  l.comment_id == cid && l.user_identifier == uid

/-- The `UPDATE public.comments SET likes_count = likes_count + d,
updated_at = now() WHERE id = p_comment_id` statement, applied to one row:
rows with another id pass through unchanged. -/
def bumpLike (cid : Nat) (d : Int) (now : Nat) (c : CommentRow) : CommentRow :=
  if c.id == cid then { c with likes_count := c.likes_count + d, updated_at := now } else c

/-- The json object `toggle_comment_like` returns:
`json_build_object('action', ..., 'likes_count', ..., 'user_liked', ...)`.
`likes_count` is an `Option` because the `RETURNING ... INTO` leaves the
variable null when the `UPDATE` matched no row. -/
structure ToggleResult where
  action : String
  likes_count : Option Int
  user_liked : Bool
deriving DecidableEq

/-- `public.toggle_comment_like(p_comment_id uuid, p_user_identifier text)`
(migration `20250813043841`, lines 86-145).  Null or blank parameters raise
`Invalid parameters`; otherwise the function branches on the existence of a
`(comment, identifier)` like row, deleting it and decrementing the counter,
or inserting one and incrementing the counter.  The insert is subject to
the `comment_likes.comment_id` foreign key, which fails when no comment has
the given id; the generated like id is an oracle parameter. -/
def toggle_comment_like (st : Store) (p_comment_id : Option Nat)
    (p_user_identifier : Option String) (newLikeId : Nat) (now : Nat) :
    Except String (Store × ToggleResult) :=
  match p_comment_id, p_user_identifier with
  | some cid, some uid =>
    if (sqlTrim uid).length == 0 then
      .error "Invalid parameters"
    else if st.comment_likes.any (likeMatches cid uid) then
      let comments1 := st.comments.map (bumpLike cid (-1) now)
      .ok ({ st with
              comments := comments1,
              comment_likes := st.comment_likes.filter (fun l => !(likeMatches cid uid l)) },
           ⟨"unliked", (comments1.find? (fun c => c.id == cid)).map (·.likes_count), false⟩)
    else if st.comments.any (fun c => c.id == cid) then
      let comments1 := st.comments.map (bumpLike cid 1 now)
      .ok ({ st with
              comments := comments1,
              comment_likes := st.comment_likes ++ [⟨newLikeId, cid, uid, now⟩] },
           ⟨"liked", (comments1.find? (fun c => c.id == cid)).map (·.likes_count), true⟩)
    else
      .error "insert on comment_likes violates foreign key comment_likes_comment_id_fkey"
  | _, _ => .error "Invalid parameters"

/-- A nullable text is null or blank after trimming (`x IS NULL OR
length(trim(x)) = 0`). -/
def isBlankOpt : Option String → Bool
  | none => true
  | some s => (sqlTrim s).length == 0

/-- The email normalisation `create_comment` applies before inserting:
`CASE WHEN p_author_email IS NOT NULL AND length(trim(p_author_email)) > 0
THEN trim(p_author_email) ELSE NULL END`. -/
def normEmail : Option String → Option String
  | none => none
  | some e => if 0 < (sqlTrim e).length then some (sqlTrim e) else none

/-- The check constraints the `comments` table places on an inserted row
(migration `20250813043841`, lines 37-39): non-blank content of at most
2000 characters, non-blank author name of at most 100 characters, and a
null or well-formed email. -/
def commentCheckOk (c : CommentRow) : Bool :=
  decide (0 < (sqlTrim c.content).length) && decide (c.content.length ≤ 2000) &&
  decide (0 < (sqlTrim c.author_name).length) && decide (c.author_name.length ≤ 100) &&
  (match c.author_email with
   | none => true
   | some e => emailMatch e)

/-- The episode validation of `create_comment`: trips when an episode id
is supplied but no episode row carries that id under the series. -/
def episodeGuard (st : Store) (sid : Nat) (pep : Option Nat) : Bool :=
  match pep with
  | some epid => !(st.episodes.any (fun e => e.id == epid && e.series_id == sid))
  | none => false

/-- The parent validation of `create_comment`: trips when a parent id is
supplied but no comment row carries that id under the series. -/
def parentGuard (st : Store) (sid : Nat) (ppar : Option Nat) : Bool :=
  match ppar with
  | some pid => !(st.comments.any (fun c => c.id == pid && c.series_id == sid))
  | none => false

/-- `public.create_comment(p_content, p_author_name, p_author_email,
p_series_id, p_episode_id, p_parent_id)` (migration `20250813043841`,
lines 148-212).  The validation chain raises on blank content or author
name, a null or unknown series, an episode id that does not exist under
the series, or a parent id that does not exist under the series; the final
`INSERT` is additionally subject to the table check constraints.  The
generated comment id and the clock are oracle parameters. -/
def create_comment (st : Store) (p_content p_author_name p_author_email : Option String)
    (p_series_id p_episode_id p_parent_id : Option Nat) (newId now : Nat) :
    Except String (Store × CommentRow) :=
  if isBlankOpt p_content then .error "Comment content is required"
  else if isBlankOpt p_author_name then .error "Author name is required"
  else
    match p_series_id with
    | none => .error "Series ID is required"
    | some sid =>
      if !(st.series.any (fun s => s.id == sid)) then
        .error "Series not found"
      else if episodeGuard st sid p_episode_id then
        .error "Episode not found or does not belong to the specified series"
      else if parentGuard st sid p_parent_id then
        .error "Parent comment not found or does not belong to the specified series"
      else
        let row : CommentRow :=
          { id := newId,
            content := sqlTrim (p_content.getD ""),
            author_name := sqlTrim (p_author_name.getD ""),
            author_email := normEmail p_author_email,
            series_id := sid,
            episode_id := p_episode_id,
            parent_id := p_parent_id,
            likes_count := 0,
            created_at := now,
            updated_at := now }
        if commentCheckOk row then
          .ok ({ st with comments := st.comments ++ [row] }, row)
        else
          .error "new row for relation comments violates a check constraint"

/-- The row shape returned by `get_comments_with_stats`: all comment
columns plus the computed `reply_count`. -/
structure StatsRow where
  id : Nat
  content : String
  author_name : String
  author_email : Option String
  series_id : Nat
  episode_id : Option Nat
  parent_id : Option Nat
  likes_count : Int
  reply_count : Nat
  created_at : Nat
  updated_at : Nat
deriving DecidableEq

/-- The grouped subquery `SELECT parent_id, COUNT(*) FROM comments WHERE
parent_id IS NOT NULL GROUP BY parent_id`: one `(parent, count)` row per
distinct non-null parent id. -/
def replyCountRows (comments : List CommentRow) : List (Nat × Nat) :=
  ((comments.filterMap (·.parent_id)).dedup).map
    (fun p => (p, (comments.filter (fun c => c.parent_id == some p)).length))

/-- The `LEFT JOIN ... COALESCE(reply_counts.reply_count, 0)` of
`get_comments_with_stats`: look the comment id up among the grouped rows,
defaulting to zero when the id heads no group. -/
def coalesceReplyCount (comments : List CommentRow) (cid : Nat) : Nat :=
  ((replyCountRows comments).lookup cid).getD 0

/-- The select list of `get_comments_with_stats`, producing one stats row
from a comment row. -/
def toStatsRow (comments : List CommentRow) (c : CommentRow) : StatsRow :=
  ⟨c.id, c.content, c.author_name, c.author_email, c.series_id, c.episode_id,
   c.parent_id, c.likes_count, coalesceReplyCount comments c.id, c.created_at,
   c.updated_at⟩

/-- The `WHERE` clause of `get_comments_with_stats`: the comment belongs to
the series, matches the episode filter when one is given (a null
`episode_id` column never equals a non-null parameter), and is top-level. -/
def topLevelFilter (sid : Nat) (eid : Option Nat) (c : CommentRow) : Bool :=
  c.series_id == sid &&
  (match eid with
   | none => true
   | some e => c.episode_id == some e) &&
  c.parent_id == none

/-- The `ORDER BY created_at DESC` relation: a row precedes another when it
was created no earlier. -/
def newestFirst (a b : StatsRow) : Prop := b.created_at ≤ a.created_at

instance : DecidableRel newestFirst := fun a b => Nat.decLe b.created_at a.created_at

instance : IsTotal StatsRow newestFirst :=
  ⟨fun a b => Nat.le_total b.created_at a.created_at⟩

instance : IsTrans StatsRow newestFirst :=
  ⟨fun _ _ _ hab hbc => Nat.le_trans hbc hab⟩

/-- `public.get_comments_with_stats(p_series_id, p_episode_id, p_limit,
p_offset)` (migration `20250813043841`, lines 215-268): filter to the
series' top-level comments (optionally one episode), annotate each with
its coalesced reply count, order newest first, then apply offset and
limit.  The SQL parameter defaults (`p_limit = 50`, `p_offset = 0`) are
reproduced as Lean default arguments. -/
def get_comments_with_stats (st : Store) (p_series_id : Nat) (p_episode_id : Option Nat)
    (p_limit : Nat := 50) (p_offset : Nat := 0) : List StatsRow :=
  ((List.insertionSort newestFirst
      ((st.comments.filter (topLevelFilter p_series_id p_episode_id)).map
        (toStatsRow st.comments))).drop p_offset).take p_limit

/-- The guard of `admin_update_series_status`: `IF admin_code <>
'Shivam2008' THEN RAISE`.  SQL `<>` against a null operand yields null and
the branch is not taken, so only a non-null, different code trips the
guard. -/
def adminGuardFails : Option String → Bool
  | none => false
  | some c => c != "Shivam2008"

/-- `public.admin_update_series_status(admin_code, p_series_id, p_status)`
(migration `20250814034445`, lines 39-63): raise `Unauthorized` when the
guard trips, update the matching series row's status and `updated_at`,
and raise `Series not found` when the `UPDATE` matched nothing (`IF NOT
FOUND`); a null series id matches no row. -/
def admin_update_series_status (st : Store) (admin_code : Option String)
    (p_series_id : Option Nat) (p_status : SeriesStatus) (now : Nat) :
    Except String Store :=
  if adminGuardFails admin_code then .error "Unauthorized"
  else
    match p_series_id with
    | none => .error "Series not found"
    | some sid =>
      if st.series.any (fun s => s.id == sid) then
        .ok { st with
               series := st.series.map (fun s =>
                 if s.id == sid then { s with status := p_status, updated_at := now } else s) }
      else .error "Series not found"

/-! ## The reachable states of the store

The procedures are the only in-scope mutators of the comment tables; the
series and episode catalogue is provisioned out of scope, so a run starts
from an arbitrary store whose comment tables are empty and applies the
procedures, each successful call consuming a fresh generated id (the
freshness of `gen_random_uuid()` outputs is the one probabilistic
assumption recorded here). -/

/-- One successful procedure call. -/
inductive Step : Store → Store → Prop where
  | create (st : Store) (pc pa pe : Option String) (ps pep ppar : Option Nat)
      (nid now : Nat) (st' : Store) (c : CommentRow)
      (hfresh : ∀ c0 ∈ st.comments, c0.id ≠ nid)
      (h : create_comment st pc pa pe ps pep ppar nid now = .ok (st', c)) :
      Step st st'
  | like (st : Store) (pc : Option Nat) (pu : Option String) (nid now : Nat)
      (st' : Store) (r : ToggleResult)
      (hfresh : ∀ l ∈ st.comment_likes, l.id ≠ nid)
      (h : toggle_comment_like st pc pu nid now = .ok (st', r)) :
      Step st st'
  | admin (st : Store) (code : Option String) (ps : Option Nat)
      (stat : SeriesStatus) (now : Nat) (st' : Store)
      (h : admin_update_series_status st code ps stat now = .ok st') :
      Step st st'

/-- A store is reachable when some run of the procedures, started from a
store with no comments and no likes, produces it. -/
def Reachable (st : Store) : Prop :=
  ∃ st0 : Store, st0.comments = [] ∧ st0.comment_likes = [] ∧
    Relation.ReflTransGen Step st0 st

/-- At most one like row per `(comment_id, user_identifier)` pair. -/
def LikesUnique (st : Store) : Prop :=
  st.comment_likes.Pairwise
    (fun a b => a.comment_id ≠ b.comment_id ∨ a.user_identifier ≠ b.user_identifier)

/-! ## Claim-support definitions -/

/-- Row-wise frame relation for the like toggle: the updated row keeps its
identity and every content field, is wholly unchanged when its id is not
the targeted one, and carries the refreshed timestamp when it is. -/
def frameEq (cid now : Nat) (c c' : CommentRow) : Prop :=
  c'.id = c.id ∧ c'.content = c.content ∧ c'.author_name = c.author_name ∧
  c'.author_email = c.author_email ∧ c'.series_id = c.series_id ∧
  c'.episode_id = c.episode_id ∧ c'.parent_id = c.parent_id ∧
  c'.created_at = c.created_at ∧
  (c.id ≠ cid → c' = c) ∧ (c.id = cid → c'.updated_at = now)

/-- The email acceptance test of the check constraint, applied to the
normalised email input: a null or blank email is stored as null and
passes; a non-blank email must match the format. -/
def emailAccepts (pe : Option String) : Bool :=
  match pe with
  | none => true
  | some e => !(decide (0 < (sqlTrim e).length)) || emailMatch (sqlTrim e)

/-- The email violation test, the negation of `emailAccepts`: a non-blank
email whose trimmed value fails the format check. -/
def emailViolation (pe : Option String) : Bool :=
  match pe with
  | none => false
  | some e => decide (0 < (sqlTrim e).length) && !(emailMatch (sqlTrim e))

/-- The exact failure condition of `create_comment`, stated as a flat
disjunction over the inputs: the conditions the claim lists (blank content
or author name, null or unknown series, episode or parent not under the
series) together with the violations of the `comments` table check
constraints that the procedure's own validation does not screen (trimmed
content over 2000 characters, trimmed author name over 100 characters, a
non-blank email that fails the format check). -/
def createFailCheck (st : Store) (pc pa pe : Option String)
    (ps pep ppar : Option Nat) : Bool :=
  isBlankOpt pc || isBlankOpt pa ||
  (match ps with
   | none => true
   | some sid =>
     !(st.series.any (fun s => s.id == sid)) ||
     episodeGuard st sid pep ||
     parentGuard st sid ppar ||
     decide (2000 < (sqlTrim (pc.getD "")).length) ||
     decide (100 < (sqlTrim (pa.getD "")).length) ||
     emailViolation pe)

/-! Concrete fixtures used by witnesses and counterexamples. -/

/-- A one-row series catalogue entry. -/
def fixSeries : SeriesRow := ⟨1, "s", SeriesStatus.ongoing, 0⟩

/-- A top-level comment on series 1, as `create_comment` stores it for
content `"a"`, author `"n"`, fresh id 2, clock 1. -/
def fixTop : CommentRow := ⟨2, "a", "n", none, 1, none, none, 0, 1, 1⟩

/-- A reply to `fixTop`, as `create_comment` stores it for fresh id 3,
clock 2. -/
def fixReply : CommentRow := ⟨3, "b", "n", none, 1, none, some 2, 0, 2, 2⟩

/-- A reply to `fixReply` (a reply to a reply), as `create_comment` stores
it for fresh id 4, clock 3. -/
def fixReply2 : CommentRow := ⟨4, "c", "n", none, 1, none, some 3, 0, 3, 3⟩

/-- The store holding `fixSeries` alone. -/
def fixStore0 : Store := ⟨[fixSeries], [], [], []⟩

/-- The store holding `fixSeries` and `fixTop`. -/
def fixStore1 : Store := ⟨[fixSeries], [], [fixTop], []⟩

/-- The store holding `fixSeries`, `fixTop` and the reply `fixReply`. -/
def fixStore2 : Store := ⟨[fixSeries], [], [fixTop, fixReply], []⟩

/-- The store holding `fixSeries`, `fixTop`, `fixReply` and the
second-level reply `fixReply2`. -/
def fixStore3 : Store := ⟨[fixSeries], [], [fixTop, fixReply, fixReply2], []⟩

/-- The store produced by liking `fixTop` as `"u9"` in `fixStore1` with
fresh like id 20 at clock 7. -/
def fixStore1Liked9 : Store :=
  ⟨[fixSeries], [], [⟨2, "a", "n", none, 1, none, none, 1, 1, 7⟩], [⟨20, 2, "u9", 7⟩]⟩

/-- The store produced by liking `fixTop` as `"u8"` in `fixStore1` with
fresh like id 30 at clock 5. -/
def fixStore1Liked8 : Store :=
  ⟨[fixSeries], [], [⟨2, "a", "n", none, 1, none, none, 1, 1, 5⟩], [⟨30, 2, "u8", 5⟩]⟩

/-! ## Helper lemmas -/

theorem bumpLike_id (cid : Nat) (d : Int) (now : Nat) (c : CommentRow) :
    (bumpLike cid d now c).id = c.id := by
  unfold bumpLike
  split <;> rfl

theorem find?_map_bumpLike (l : List CommentRow) (cid : Nat) (d : Int) (now : Nat) :
    (l.map (bumpLike cid d now)).find? (fun c => c.id == cid)
      = (l.find? (fun c => c.id == cid)).map (bumpLike cid d now) := by
  rw [List.find?_map]
  have hcomp : ((fun c : CommentRow => c.id == cid) ∘ bumpLike cid d now)
      = (fun c : CommentRow => c.id == cid) := by
    funext c
    simp [Function.comp, bumpLike_id]
  rw [hcomp]

theorem bumpLike_likes_of_match (cid : Nat) (d : Int) (now : Nat) (c : CommentRow)
    (h : (c.id == cid) = true) :
    (bumpLike cid d now c).likes_count = c.likes_count + d := by
  unfold bumpLike
  rw [h]
  simp

theorem bumpLike_of_ne (cid : Nat) (d : Int) (now : Nat) (c : CommentRow)
    (h : c.id ≠ cid) : bumpLike cid d now c = c := by
  unfold bumpLike
  rw [if_neg]
  simp [h]

theorem dropWhile_idem {α : Type} (p : α → Bool) (l : List α) :
    (l.dropWhile p).dropWhile p = l.dropWhile p := by
  induction l with
  | nil => rfl
  | cons a l ih =>
    by_cases h : p a = true
    · simp [List.dropWhile_cons, h, ih]
    · simp [List.dropWhile_cons, h]

theorem dropWhile_eq_self_of_prefix {α : Type} (p : α → Bool) (u v : List α)
    (hu : u.dropWhile p = u) (hpre : v <+: u) : v.dropWhile p = v := by
  obtain ⟨t, rfl⟩ := hpre
  cases v with
  | nil => rfl
  | cons a v' =>
    rw [List.cons_append] at hu
    by_cases h : p a = true
    · exfalso
      rw [List.dropWhile_cons, if_pos h] at hu
      have hlen : (List.dropWhile p (v' ++ t)).length ≤ (v' ++ t).length :=
        ((List.dropWhile_suffix p).sublist).length_le
      rw [hu] at hlen
      simp at hlen
    · rw [List.dropWhile_cons, if_neg h]

/-- The trailing-space trim keeps a leading-space-free list
leading-space-free, because it returns an initial segment of its input. -/
theorem sqlTrim_idem (s : String) : sqlTrim (sqlTrim s) = sqlTrim s := by
  unfold sqlTrim
  apply congrArg String.mk
  set p : Char → Bool := fun c => c == ' ' with hp
  show ((((((s.data.dropWhile p).reverse.dropWhile p).reverse).dropWhile p).reverse.dropWhile p).reverse)
      = ((s.data.dropWhile p).reverse.dropWhile p).reverse
  set u : List Char := s.data.dropWhile p with hu
  have hufix : u.dropWhile p = u := dropWhile_idem p s.data
  set v : List Char := (u.reverse.dropWhile p).reverse with hv
  have hpre : v <+: u := by
    have hsuf : u.reverse.dropWhile p <:+ u.reverse := List.dropWhile_suffix p
    have := List.reverse_prefix.mpr hsuf
    rwa [List.reverse_reverse] at this
  have hvfix : v.dropWhile p = v := dropWhile_eq_self_of_prefix p u v hufix hpre
  rw [hvfix, hv, List.reverse_reverse, dropWhile_idem]

theorem lookup_map_self {α β : Type} [DecidableEq α] (l : List α) (f : α → β) (a : α) :
    ((l.map (fun x => (x, f x))).lookup a) = if a ∈ l then some (f a) else none := by
  induction l with
  | nil => simp [List.lookup]
  | cons x l ih =>
    by_cases hax : a = x
    · subst hax
      simp [List.lookup]
    · simp only [List.map_cons, List.lookup, beq_eq_false_iff_ne.mpr hax, List.mem_cons]
      rw [ih]
      simp [hax]

/-- The grouped-and-joined reply count coincides with the direct count of
comments whose parent is the given id. -/
theorem coalesceReplyCount_eq (comments : List CommentRow) (cid : Nat) :
    coalesceReplyCount comments cid
      = (comments.filter (fun c => c.parent_id == some cid)).length := by
  unfold coalesceReplyCount replyCountRows
  rw [lookup_map_self]
  by_cases hmem : cid ∈ (comments.filterMap (·.parent_id)).dedup
  · rw [if_pos hmem]
    rfl
  · rw [if_neg hmem]
    have hempty : comments.filter (fun c => c.parent_id == some cid) = [] := by
      rw [List.filter_eq_nil_iff]
      intro c hc hpc
      apply hmem
      rw [List.mem_dedup, List.mem_filterMap]
      exact ⟨c, hc, by simpa using hpc⟩
    rw [hempty]
    rfl

theorem forall₂_map_self {α : Type} (R : α → α → Prop) (f : α → α) (l : List α)
    (h : ∀ a, R a (f a)) : List.Forall₂ R l (l.map f) := by
  induction l with
  | nil => exact List.Forall₂.nil
  | cons a l ih => exact List.Forall₂.cons (h a) ih

theorem frameEq_bumpLike (cid : Nat) (d : Int) (now : Nat) (c : CommentRow) :
    frameEq cid now c (bumpLike cid d now c) := by
  unfold bumpLike frameEq
  by_cases h : c.id = cid
  · simp [h]
  · simp [h]

theorem topLevelFilter_eq (sid : Nat) (eid : Option Nat) (c : CommentRow) :
    topLevelFilter sid eid c = true ↔
      (c.parent_id = none ∧ c.series_id = sid ∧
       (∀ e, eid = some e → c.episode_id = some e)) := by
  unfold topLevelFilter
  cases eid with
  | none => simp; tauto
  | some e => simp; tauto

/-! ## Claim theorems -/

/-- C10: `toggle_comment_like` raises the `Invalid parameters` error —
returning no modified store, so the store is unchanged — whenever the
comment id is null, or the user identifier is null or blank after
trimming, for every store state. -/
theorem toggle_comment_like_invalid_params (st : Store) (pc : Option Nat)
    (pu : Option String) (nid now : Nat)
    (h : pc = none ∨ pu = none ∨ ∃ u, pu = some u ∧ (sqlTrim u).length = 0) :
    toggle_comment_like st pc pu nid now = .error "Invalid parameters" := by
  rcases h with rfl | rfl | ⟨u, rfl, hu⟩
  · cases pu <;> rfl
  · cases pc <;> rfl
  · cases pc with
    | none => rfl
    | some cid =>
      have hb : ((sqlTrim u).length == 0) = true := by simpa using hu
      simp only [toggle_comment_like, hb, if_true]

/-- Witness for C10 at a concrete input: a null comment id is rejected. -/
theorem toggle_comment_like_invalid_params_witness :
    ((none : Option Nat) = none ∨ (some "u" : Option String) = none ∨
      ∃ u, (some "u" : Option String) = some u ∧ (sqlTrim u).length = 0) ∧
    toggle_comment_like ⟨[], [], [], []⟩ none (some "u") 0 0
      = .error "Invalid parameters" :=
  ⟨Or.inl rfl,
   toggle_comment_like_invalid_params ⟨[], [], [], []⟩ none (some "u") 0 0 (Or.inl rfl)⟩

/-- C6 (code bug): with a null admin code the guard `IF admin_code <>
'Shivam2008'` evaluates to SQL null and is not taken, so the call with a
null code and an existing series succeeds and performs the update, where
the claim (and the spec's fail-closed intent) requires any code differing
from the secret to fail.  Evaluated at the failing input: series 1 exists,
the code is null, and the update goes through. -/
theorem admin_update_series_status_null_code_fails_open :
    admin_update_series_status fixStore0 none (some 1) SeriesStatus.completed 9
      = .ok ⟨[⟨1, "s", SeriesStatus.completed, 9⟩], [], [], []⟩ ∧
    (none : Option String) ≠ some "Shivam2008" := by
  constructor
  · rfl
  · simp

/-- C4: every row returned by `get_comments_with_stats` is top-level (null
parent), and its `reply_count` equals the number of comments in the store
whose `parent_id` equals the row's id. -/
theorem get_comments_with_stats_row_shape (st : Store) (sid : Nat)
    (eid : Option Nat) (lim off : Nat) (r : StatsRow)
    (hr : r ∈ get_comments_with_stats st sid eid lim off) :
    r.parent_id = none ∧
    r.reply_count = (st.comments.filter (fun c => c.parent_id == some r.id)).length := by
  unfold get_comments_with_stats at hr
  have h1 : r ∈ List.insertionSort newestFirst
      ((st.comments.filter (topLevelFilter sid eid)).map (toStatsRow st.comments)) :=
    (List.drop_sublist _ _).subset ((List.take_sublist _ _).subset hr)
  have h2 : r ∈ (st.comments.filter (topLevelFilter sid eid)).map (toStatsRow st.comments) :=
    (List.perm_insertionSort newestFirst _).subset h1
  obtain ⟨c, hcf, rfl⟩ := List.mem_map.mp h2
  have hpred := (List.mem_filter.mp hcf).2
  have hparent : c.parent_id = none := ((topLevelFilter_eq sid eid c).mp hpred).1
  refine ⟨hparent, ?_⟩
  show coalesceReplyCount st.comments c.id
      = (st.comments.filter (fun x => x.parent_id == some c.id)).length
  exact coalesceReplyCount_eq st.comments c.id

/-- Witness for C4: on a store holding one top-level comment with one
reply, the returned row for the top-level comment is in the result. -/
theorem get_comments_with_stats_row_shape_witness :
    ((⟨2, "a", "n", none, 1, none, none, 0, 1, 1, 1⟩ : StatsRow)
        ∈ get_comments_with_stats fixStore2 1 none 50 0) ∧
    ((⟨2, "a", "n", none, 1, none, none, 0, 1, 1, 1⟩ : StatsRow).parent_id = none ∧
     (⟨2, "a", "n", none, 1, none, none, 0, 1, 1, 1⟩ : StatsRow).reply_count
       = (fixStore2.comments.filter
           (fun c => c.parent_id == some (⟨2, "a", "n", none, 1, none, none, 0, 1, 1, 1⟩ : StatsRow).id)).length) :=
  ⟨by decide,
   get_comments_with_stats_row_shape fixStore2 1 none 50 0
     ⟨2, "a", "n", none, 1, none, none, 0, 1, 1, 1⟩ (by decide)⟩

/-- C5: the result of `get_comments_with_stats` is the newest-first
ordering of the series' top-level comments (restricted to the episode when
one is given), with `p_offset` rows dropped from the front and at most
`p_limit` rows kept; the unpaginated sequence is characterised by
membership, the output is sorted newest-first, and the omitted parameters
default to a limit of 50 and an offset of 0. -/
theorem get_comments_with_stats_pagination (st : Store) (sid : Nat)
    (eid : Option Nat) (lim off : Nat) :
    get_comments_with_stats st sid eid lim off
        = ((get_comments_with_stats st sid eid st.comments.length 0).drop off).take lim
    ∧ List.Sorted newestFirst (get_comments_with_stats st sid eid lim off)
    ∧ (∀ r : StatsRow,
        r ∈ get_comments_with_stats st sid eid st.comments.length 0 ↔
          ∃ c ∈ st.comments, c.parent_id = none ∧ c.series_id = sid ∧
            (∀ e, eid = some e → c.episode_id = some e) ∧
            r = toStatsRow st.comments c)
    ∧ get_comments_with_stats st sid eid = get_comments_with_stats st sid eid 50 0 := by
  have hlen : (List.insertionSort newestFirst
      ((st.comments.filter (topLevelFilter sid eid)).map (toStatsRow st.comments))).length
        ≤ st.comments.length := by
    rw [(List.perm_insertionSort newestFirst _).length_eq, List.length_map]
    exact List.length_filter_le _ _
  have hfull : get_comments_with_stats st sid eid st.comments.length 0
      = List.insertionSort newestFirst
          ((st.comments.filter (topLevelFilter sid eid)).map (toStatsRow st.comments)) := by
    unfold get_comments_with_stats
    rw [List.drop_zero, List.take_of_length_le hlen]
  refine ⟨?_, ?_, ?_, rfl⟩
  · rw [hfull]
    rfl
  · unfold get_comments_with_stats
    exact ((List.sorted_insertionSort newestFirst _).sublist
      ((List.take_sublist _ _).trans (List.drop_sublist _ _)))
  · intro r
    rw [hfull]
    constructor
    · intro hmem
      obtain ⟨c, hcf, hrc⟩ :=
        List.mem_map.mp ((List.perm_insertionSort newestFirst _).subset hmem)
      obtain ⟨hcm, hpred⟩ := List.mem_filter.mp hcf
      obtain ⟨h1, h2, h3⟩ := (topLevelFilter_eq sid eid c).mp hpred
      exact ⟨c, hcm, h1, h2, h3, hrc.symm⟩
    · rintro ⟨c, hcm, h1, h2, h3, rfl⟩
      apply (List.perm_insertionSort newestFirst _).mem_iff.mpr
      exact List.mem_map_of_mem _
        (List.mem_filter.mpr ⟨hcm, (topLevelFilter_eq sid eid c).mpr ⟨h1, h2, h3⟩⟩)

/-- Witness for C5 at a concrete store: the sortedness component of the
pagination theorem, applied to the two-comment fixture. -/
theorem get_comments_with_stats_pagination_witness :
    List.Sorted newestFirst (get_comments_with_stats fixStore2 1 none 50 0) :=
  (get_comments_with_stats_pagination fixStore2 1 none 50 0).2.1

/-- C1: from a state where comment `C` exists with some current counter
and no `(C, U)` like row, toggling once returns action `liked`,
`user_liked = true`, and a counter one above the prior value; toggling
again from the resulting state returns action `unliked`,
`user_liked = false`, the counter back at its original value, and the
stored counter of `C` equal to the original value. -/
theorem toggle_comment_like_twice (st : Store) (C : Nat) (U : String)
    (c0 : CommentRow) (id1 t1 id2 t2 : Nat)
    (hfind : st.comments.find? (fun c => c.id == C) = some c0)
    (hU : (sqlTrim U).length ≠ 0)
    (hnolike : ∀ l ∈ st.comment_likes, likeMatches C U l = false) :
    toggle_comment_like st (some C) (some U) id1 t1
        = .ok ({ st with comments := st.comments.map (bumpLike C 1 t1),
                         comment_likes := st.comment_likes ++ [⟨id1, C, U, t1⟩] },
               ⟨"liked", some (c0.likes_count + 1), true⟩)
    ∧ toggle_comment_like
        { st with comments := st.comments.map (bumpLike C 1 t1),
                  comment_likes := st.comment_likes ++ [⟨id1, C, U, t1⟩] }
        (some C) (some U) id2 t2
        = .ok ({ st with
                  comments := (st.comments.map (bumpLike C 1 t1)).map (bumpLike C (-1) t2),
                  comment_likes := st.comment_likes },
               ⟨"unliked", some c0.likes_count, false⟩)
    ∧ (((st.comments.map (bumpLike C 1 t1)).map (bumpLike C (-1) t2)).find?
          (fun c => c.id == C)).map (·.likes_count) = some c0.likes_count := by
  have hbU : ((sqlTrim U).length == 0) = false := by
    simpa using hU
  have hany0 : st.comment_likes.any (likeMatches C U) = false :=
    List.any_eq_false.mpr (fun l hl => by simp [hnolike l hl])
  have hc0 : (c0.id == C) = true := by
    have h := List.find?_some hfind
    simpa using h
  have hexists : st.comments.any (fun c => c.id == C) = true :=
    List.any_eq_true.mpr ⟨c0, List.mem_of_find?_eq_some hfind, hc0⟩
  have hfind1 : (st.comments.map (bumpLike C 1 t1)).find? (fun c => c.id == C)
      = some (bumpLike C 1 t1 c0) := by
    rw [find?_map_bumpLike, hfind]
    rfl
  have hid1 : ((bumpLike C 1 t1 c0).id == C) = true := by
    rw [bumpLike_id]
    exact hc0
  have hfind2 : ((st.comments.map (bumpLike C 1 t1)).map (bumpLike C (-1) t2)).find?
      (fun c => c.id == C) = some (bumpLike C (-1) t2 (bumpLike C 1 t1 c0)) := by
    rw [find?_map_bumpLike, hfind1]
    rfl
  have hlikes1 : (bumpLike C 1 t1 c0).likes_count = c0.likes_count + 1 :=
    bumpLike_likes_of_match C 1 t1 c0 hc0
  have hlikes2 : (bumpLike C (-1) t2 (bumpLike C 1 t1 c0)).likes_count = c0.likes_count := by
    rw [bumpLike_likes_of_match C (-1) t2 _ hid1, hlikes1]
    omega
  have hany1 : (st.comment_likes ++ [(⟨id1, C, U, t1⟩ : CommentLikeRow)]).any
      (likeMatches C U) = true := by
    rw [List.any_append]
    simp [likeMatches]
  have hfilter : (st.comment_likes ++ [(⟨id1, C, U, t1⟩ : CommentLikeRow)]).filter
      (fun l => !(likeMatches C U l)) = st.comment_likes := by
    rw [List.filter_append]
    have h1 : st.comment_likes.filter (fun l => !(likeMatches C U l)) = st.comment_likes :=
      List.filter_eq_self.mpr (fun l hl => by simp [hnolike l hl])
    have h2 : ([(⟨id1, C, U, t1⟩ : CommentLikeRow)]).filter
        (fun l => !(likeMatches C U l)) = [] := by
      simp [likeMatches]
    rw [h1, h2, List.append_nil]
  refine ⟨?_, ?_, ?_⟩
  · simp only [toggle_comment_like, hbU, hany0, hexists, Bool.false_eq_true, if_false, if_true,
      hfind1]
    simp [hlikes1]
  · simp only [toggle_comment_like, hbU, hany1, Bool.false_eq_true, if_false, if_true,
      hfind2, hfilter]
    simp [hlikes2]
  · rw [hfind2]
    simp [hlikes2]

/-- Witness for C1: the double toggle applied to the one-comment fixture
with identifier `"u1"`. -/
theorem toggle_comment_like_twice_witness :
    (fixStore1.comments.find? (fun c => c.id == 2) = some fixTop) ∧
    ((sqlTrim "u1").length ≠ 0) ∧
    (∀ l ∈ fixStore1.comment_likes, likeMatches 2 "u1" l = false) ∧
    (toggle_comment_like fixStore1 (some 2) (some "u1") 10 5
        = .ok ({ fixStore1 with
                 comments := fixStore1.comments.map (bumpLike 2 1 5),
                 comment_likes := fixStore1.comment_likes ++ [⟨10, 2, "u1", 5⟩] },
               ⟨"liked", some (fixTop.likes_count + 1), true⟩)
     ∧ toggle_comment_like
         { fixStore1 with
           comments := fixStore1.comments.map (bumpLike 2 1 5),
           comment_likes := fixStore1.comment_likes ++ [⟨10, 2, "u1", 5⟩] }
         (some 2) (some "u1") 11 6
         = .ok ({ fixStore1 with
                  comments := (fixStore1.comments.map (bumpLike 2 1 5)).map (bumpLike 2 (-1) 6),
                  comment_likes := fixStore1.comment_likes },
                ⟨"unliked", some fixTop.likes_count, false⟩)
     ∧ (((fixStore1.comments.map (bumpLike 2 1 5)).map (bumpLike 2 (-1) 6)).find?
           (fun c => c.id == 2)).map (·.likes_count) = some fixTop.likes_count) :=
  ⟨by decide, by decide, by decide,
   toggle_comment_like_twice fixStore1 2 "u1" fixTop 10 5 11 6
     (by decide) (by decide) (by decide)⟩

/-- C9 (frame): a successful `toggle_comment_like` call leaves the series
and episode tables untouched; every comment keeps its identity and all its
content fields, rows other than the target are wholly unchanged, and the
target row carries the refreshed timestamp; and the like table changes
only by appending the one new `(comment, identifier)` row (like branch) or
deleting the rows matching that pair (unlike branch). -/
theorem toggle_comment_like_frame (st : Store) (cid : Nat) (uid : String)
    (nid now : Nat) (st' : Store) (r : ToggleResult)
    (h : toggle_comment_like st (some cid) (some uid) nid now = .ok (st', r)) :
    st'.series = st.series ∧ st'.episodes = st.episodes ∧
    List.Forall₂ (frameEq cid now) st.comments st'.comments ∧
    ((st'.comment_likes = st.comment_likes ++ [⟨nid, cid, uid, now⟩] ∧
        r.action = "liked") ∨
     (st'.comment_likes = st.comment_likes.filter (fun l => !(likeMatches cid uid l)) ∧
        r.action = "unliked")) := by
  simp only [toggle_comment_like] at h
  split_ifs at h <;>
    first
      | exact Except.noConfusion h
      | (rw [Except.ok.injEq, Prod.mk.injEq] at h
         obtain ⟨hst, hr⟩ := h
         subst hst
         subst hr
         refine ⟨rfl, rfl, ?_, ?_⟩ <;>
           first
             | exact forall₂_map_self _ _ _ (fun c => frameEq_bumpLike cid (-1) now c)
             | exact forall₂_map_self _ _ _ (fun c => frameEq_bumpLike cid 1 now c)
             | exact Or.inl ⟨rfl, rfl⟩
             | exact Or.inr ⟨rfl, rfl⟩)

/-- Witness for C9: liking the fixture comment as `"u9"`. -/
theorem toggle_comment_like_frame_witness :
    (toggle_comment_like fixStore1 (some 2) (some "u9") 20 7
        = .ok (fixStore1Liked9, ⟨"liked", some 1, true⟩)) ∧
    (fixStore1Liked9.series = fixStore1.series ∧
     fixStore1Liked9.episodes = fixStore1.episodes ∧
     List.Forall₂ (frameEq 2 7) fixStore1.comments fixStore1Liked9.comments ∧
     ((fixStore1Liked9.comment_likes
          = fixStore1.comment_likes ++ [⟨20, 2, "u9", 7⟩] ∧
        (⟨"liked", some 1, true⟩ : ToggleResult).action = "liked") ∨
      (fixStore1Liked9.comment_likes
          = fixStore1.comment_likes.filter (fun l => !(likeMatches 2 "u9" l)) ∧
        (⟨"liked", some 1, true⟩ : ToggleResult).action = "unliked"))) :=
  ⟨by rfl,
   toggle_comment_like_frame fixStore1 2 "u9" 20 7 fixStore1Liked9
     ⟨"liked", some 1, true⟩ (by rfl)⟩

theorem likesUnique_of_toggle (st st' : Store) (pc : Option Nat) (pu : Option String)
    (nid now : Nat) (r : ToggleResult) (hU : LikesUnique st)
    (h : toggle_comment_like st pc pu nid now = .ok (st', r)) : LikesUnique st' := by
  cases pc with
  | none =>
    simp only [toggle_comment_like] at h
    exact Except.noConfusion h
  | some cid =>
    cases pu with
    | none =>
      simp only [toggle_comment_like] at h
      exact Except.noConfusion h
    | some uid =>
      simp only [toggle_comment_like] at h
      split_ifs at h with h1 h2 h3 <;>
        first
          | exact Except.noConfusion h
          | (rw [Except.ok.injEq, Prod.mk.injEq] at h
             obtain ⟨hst, hr⟩ := h
             subst hst
             first
               | exact hU.sublist (List.filter_sublist _)
               | (have hany : st.comment_likes.any (likeMatches cid uid) = false := by
                    simpa using h2
                  have hno := List.any_eq_false.mp hany
                  show List.Pairwise _ (st.comment_likes ++ [⟨nid, cid, uid, now⟩])
                  rw [List.pairwise_append]
                  refine ⟨hU, List.pairwise_singleton _ _, ?_⟩
                  intro a ha b hb
                  have hb1 : b = (⟨nid, cid, uid, now⟩ : CommentLikeRow) := by
                    simpa using hb
                  subst hb1
                  have hf := hno a ha
                  simp only [likeMatches, Bool.and_eq_true, beq_iff_eq] at hf
                  by_cases hcm : a.comment_id = cid
                  · right
                    intro hu
                    exact hf (by simp [hcm, hu])
                  · exact Or.inl hcm))

theorem likes_table_of_create (st : Store) (pc pa pe : Option String)
    (ps pep ppar : Option Nat) (nid now : Nat) (st' : Store) (c : CommentRow)
    (h : create_comment st pc pa pe ps pep ppar nid now = .ok (st', c)) :
    st'.comment_likes = st.comment_likes := by
  cases ps with
  | none =>
    simp only [create_comment] at h
    split_ifs at h <;> exact Except.noConfusion h
  | some sid =>
    simp only [create_comment] at h
    split_ifs at h <;>
      first
        | exact Except.noConfusion h
        | (rw [Except.ok.injEq, Prod.mk.injEq] at h
           obtain ⟨hst, hc2⟩ := h
           subst hst
           rfl)

theorem likes_table_of_admin (st : Store) (code : Option String) (ps : Option Nat)
    (stat : SeriesStatus) (now : Nat) (st' : Store)
    (h : admin_update_series_status st code ps stat now = .ok st') :
    st'.comment_likes = st.comment_likes := by
  cases ps with
  | none =>
    simp only [admin_update_series_status] at h
    split_ifs at h <;> exact Except.noConfusion h
  | some sid =>
    simp only [admin_update_series_status] at h
    split_ifs at h <;>
      first
        | exact Except.noConfusion h
        | (rw [Except.ok.injEq] at h
           subst h
           rfl)

theorem step_preserves_likesUnique {a b : Store} (h : Step a b)
    (hU : LikesUnique a) : LikesUnique b := by
  cases h with
  | create pc pa pe ps pep ppar nid now st' c hfresh hc =>
    unfold LikesUnique
    rw [likes_table_of_create _ pc pa pe ps pep ppar nid now _ c hc]
    exact hU
  | like pc pu nid now st' r hfresh hl =>
    exact likesUnique_of_toggle _ _ pc pu nid now r hU hl
  | admin code ps stat now st' ha =>
    unfold LikesUnique
    rw [likes_table_of_admin _ code ps stat now _ ha]
    exact hU

/-- C8: every store reachable through the procedures has at most one
`comment_likes` row per `(comment_id, user_identifier)` pair, and
`toggle_comment_like` preserves that uniqueness on both its branches (the
unlike branch deletes matching rows, the like branch inserts only when no
matching row exists). -/
theorem comment_like_pair_uniqueness :
    (∀ st : Store, Reachable st → LikesUnique st) ∧
    (∀ (st st' : Store) (pc : Option Nat) (pu : Option String) (nid now : Nat)
       (r : ToggleResult), LikesUnique st →
         toggle_comment_like st pc pu nid now = .ok (st', r) → LikesUnique st') := by
  constructor
  · rintro st ⟨st0, hc0, hl0, hrt⟩
    have h0 : LikesUnique st0 := by
      unfold LikesUnique
      rw [hl0]
      exact List.Pairwise.nil
    induction hrt with
    | refl => exact h0
    | tail hab hbc ih => exact step_preserves_likesUnique hbc ih
  · intro st st' pc pu nid now r hU h
    exact likesUnique_of_toggle st st' pc pu nid now r hU h

/-- Witness for C8: liking the fixture comment as `"u8"` preserves the
uniqueness of like pairs. -/
theorem comment_like_pair_uniqueness_witness :
    LikesUnique fixStore1 ∧ LikesUnique fixStore1Liked8 :=
  have hu : LikesUnique fixStore1 := List.Pairwise.nil
  ⟨hu,
   comment_like_pair_uniqueness.2 fixStore1 fixStore1Liked8 (some 2) (some "u8") 30 5
     ⟨"liked", some 1, true⟩ hu (by rfl)⟩

/-- C7 (counterexample): the claim that the comment tree is at most two
levels deep fails.  From a reachable store holding a top-level comment
(id 2) and its reply (id 3), `create_comment` accepts a comment whose
parent is the reply — its validation only requires the parent to exist in
the same series, not to be top-level — producing a third-level comment. -/
theorem create_comment_reply_depth_counterexample :
    Reachable fixStore2 ∧
    create_comment fixStore2 (some "c") (some "n") none (some 1) none (some 3) 4 3
      = .ok (fixStore3, fixReply2) ∧
    fixReply2.parent_id = some 3 ∧
    fixStore2.comments.find? (fun c => c.id == 3) = some fixReply ∧
    fixReply.parent_id = some 2 := by
  refine ⟨?_, by rfl, by rfl, by rfl, by rfl⟩
  refine ⟨fixStore0, rfl, rfl, ?_⟩
  have step1 : Step fixStore0 fixStore1 :=
    Step.create fixStore0 (some "a") (some "n") none (some 1) none none 2 1 fixStore1 fixTop
      (fun c0 hc0 => absurd hc0 (List.not_mem_nil c0)) (by rfl)
  have step2 : Step fixStore1 fixStore2 :=
    Step.create fixStore1 (some "b") (some "n") none (some 1) none (some 2) 3 2 fixStore2 fixReply
      (by simp [fixStore1, fixTop]) (by rfl)
  exact Relation.ReflTransGen.tail (Relation.ReflTransGen.single step1) step2

/-- C7 (amended): a comment accepted by `create_comment` with a non-null
parent id records that parent, and the parent exists in the store and
belongs to the same series as the new comment; the parent is not required
to be top-level, so reply depth is not bounded at two. -/
theorem create_comment_reply_parent_same_series (st : Store)
    (pc pa pe : Option String) (ps : Option Nat) (pep : Option Nat) (pid : Nat)
    (nid now : Nat) (st' : Store) (c : CommentRow)
    (h : create_comment st pc pa pe ps pep (some pid) nid now = .ok (st', c)) :
    c.parent_id = some pid ∧
    ∃ p ∈ st.comments, p.id = pid ∧ p.series_id = c.series_id := by
  cases ps with
  | none =>
    simp only [create_comment] at h
    split_ifs at h <;> exact Except.noConfusion h
  | some sid =>
    simp only [create_comment] at h
    split_ifs at h with h1 h2 h3 h4 h5 h6 <;>
      first
        | exact Except.noConfusion h
        | (rw [Except.ok.injEq, Prod.mk.injEq] at h
           obtain ⟨hst, hc⟩ := h
           subst hc
           have hany : st.comments.any (fun x => x.id == pid && x.series_id == sid) = true := by
             simpa [parentGuard] using h5
           obtain ⟨p, hp, hpp⟩ := List.any_eq_true.mp hany
           simp only [Bool.and_eq_true, beq_iff_eq] at hpp
           exact ⟨rfl, p, hp, hpp.1, hpp.2⟩)

/-- Witness for the amended C7: the reply fixture's parent is the
top-level fixture comment, found in the store with the same series. -/
theorem create_comment_reply_parent_same_series_witness :
    (create_comment fixStore1 (some "b") (some "n") none (some 1) none (some 2) 3 2
        = .ok (fixStore2, fixReply)) ∧
    (fixReply.parent_id = some 2 ∧
     ∃ p ∈ fixStore1.comments, p.id = 2 ∧ p.series_id = fixReply.series_id) :=
  ⟨by rfl,
   create_comment_reply_parent_same_series fixStore1 (some "b") (some "n") none
     (some 1) none 2 3 2 fixStore2 fixReply (by rfl)⟩

theorem isBlankOpt_false_pos {o : Option String}
    (h : isBlankOpt o = false) : 0 < (sqlTrim (o.getD "")).length := by
  cases o with
  | none => exact absurd h (by simp [isBlankOpt])
  | some s =>
    simp only [isBlankOpt, beq_eq_false_iff_ne] at h
    simpa using Nat.pos_of_ne_zero h

theorem commentCheckOk_insert (pc pa pe : Option String) (sid nid now : Nat)
    (pep ppar : Option Nat)
    (hc : isBlankOpt pc = false) (ha : isBlankOpt pa = false) :
    commentCheckOk
      { id := nid, content := sqlTrim (pc.getD ""), author_name := sqlTrim (pa.getD ""),
        author_email := normEmail pe, series_id := sid, episode_id := pep,
        parent_id := ppar, likes_count := 0, created_at := now, updated_at := now }
      = (decide ((sqlTrim (pc.getD "")).length ≤ 2000) &&
         decide ((sqlTrim (pa.getD "")).length ≤ 100) &&
         emailAccepts pe) := by
  unfold commentCheckOk
  simp only
  rw [sqlTrim_idem, sqlTrim_idem]
  rw [decide_eq_true (isBlankOpt_false_pos hc), decide_eq_true (isBlankOpt_false_pos ha)]
  simp only [Bool.true_and, Bool.and_true]
  congr 1
  unfold emailAccepts
  cases pe with
  | none => rfl
  | some e =>
    simp only [normEmail]
    by_cases hpos : 0 < (sqlTrim e).length
    · rw [if_pos hpos, decide_eq_true hpos]
      rfl
    · rw [if_neg hpos, decide_eq_false hpos]
      rfl

theorem checkBool_negation (x y : Nat) (pe : Option String) :
    (decide (x ≤ 2000) && decide (y ≤ 100) && emailAccepts pe)
    = !(decide (2000 < x) || decide (100 < y) || emailViolation pe) := by
  have hA : decide (x ≤ 2000) = !(decide (2000 < x)) := by
    rcases le_or_lt x 2000 with h | h
    · rw [decide_eq_true h, decide_eq_false (by omega)]
      rfl
    · rw [decide_eq_false (by omega), decide_eq_true h]
      rfl
  have hB : decide (y ≤ 100) = !(decide (100 < y)) := by
    rcases le_or_lt y 100 with h | h
    · rw [decide_eq_true h, decide_eq_false (by omega)]
      rfl
    · rw [decide_eq_false (by omega), decide_eq_true h]
      rfl
  rw [hA, hB]
  unfold emailAccepts emailViolation
  cases pe with
  | none => simp [Bool.not_or]
  | some e => simp [Bool.not_or, Bool.not_and, Bool.and_assoc]

/-- C2 (amended): `create_comment` fails exactly when the content is null
or blank after trimming, or the author name is null or blank after
trimming, or the series id is null or references no existing series, or a
non-null episode id references no episode row of that series, or a
non-null parent id references no comment row of that series, or — beyond
the conditions the claim lists — the insert violates a check constraint of
the `comments` table: trimmed content over 2000 characters, trimmed author
name over 100 characters, or a non-blank email whose trimmed value fails
the format check. -/
theorem create_comment_error_characterisation (st : Store)
    (pc pa pe : Option String) (ps pep ppar : Option Nat) (nid now : Nat) :
    (create_comment st pc pa pe ps pep ppar nid now).isOk
      = !(createFailCheck st pc pa pe ps pep ppar) := by
  unfold create_comment createFailCheck
  by_cases h1 : isBlankOpt pc = true
  · simp [h1, Except.isOk, Except.toBool]
  · have h1' : isBlankOpt pc = false := Bool.eq_false_iff.mpr h1
    by_cases h2 : isBlankOpt pa = true
    · simp [h1', h2, Except.isOk, Except.toBool]
    · have h2' : isBlankOpt pa = false := Bool.eq_false_iff.mpr h2
      cases ps with
      | none => simp [h1', h2', Except.isOk, Except.toBool]
      | some sid =>
        by_cases h3 : st.series.any (fun s => s.id == sid) = true
        · have h3' : (!(st.series.any (fun s => s.id == sid))) = false := by
            simp [h3]
          by_cases h4 : episodeGuard st sid pep = true
          · simp [h1', h2', h3', h4, Except.isOk, Except.toBool]
          · have h4' : episodeGuard st sid pep = false := Bool.eq_false_iff.mpr h4
            by_cases h5 : parentGuard st sid ppar = true
            · simp [h1', h2', h3', h4', h5, Except.isOk, Except.toBool]
            · have h5' : parentGuard st sid ppar = false := Bool.eq_false_iff.mpr h5
              simp only [h1', h2', h3', h4', h5', Bool.false_eq_true, if_false,
                Bool.false_or]
              rw [commentCheckOk_insert pc pa pe sid nid now pep ppar h1' h2',
                checkBool_negation]
              cases hM : (decide (2000 < (sqlTrim (pc.getD "")).length) ||
                  decide (100 < (sqlTrim (pa.getD "")).length) ||
                  emailViolation pe) with
              | true =>
                rw [if_neg (by simp)]
                rfl
              | false =>
                rw [if_pos (by simp)]
                rfl
        · have h3' : (!(st.series.any (fun s => s.id == sid))) = true := by
            rw [Bool.eq_false_iff.mpr h3]
            rfl
          simp [h1', h2', h3', Except.isOk, Except.toBool]

/-- C2 (counterexample): the claim's list of failure causes is not
exhaustive.  With non-blank content and author name, an existing series,
and no episode or parent reference, the call still fails — the supplied
email `"bad-email"` is non-blank and fails the table's format check. -/
theorem create_comment_error_counterexample :
    (create_comment fixStore0 (some "hi") (some "Bob") (some "bad-email") (some 1)
        none none 7 4).isOk = false ∧
    isBlankOpt (some "hi") = false ∧
    isBlankOpt (some "Bob") = false ∧
    fixStore0.series.any (fun s => s.id == 1) = true := by
  refine ⟨by decide, by decide, by decide, by decide⟩

/-- C3 (amended): for non-blank content and author name whose trimmed
lengths respect the table bounds, an existing series, passing episode and
parent references, and an email that is null, blank, or well-formed after
trimming, `create_comment` succeeds and returns the stored row: content
and author name are the trimmed inputs, the email is null when the input
was null or blank and the trimmed email otherwise (`normEmail`), the like
counter is zero, and both timestamps are the insertion clock. -/
theorem create_comment_success_shape (st : Store) (content author : String)
    (pe : Option String) (sid : Nat) (pep ppar : Option Nat) (nid now : Nat)
    (hcb : (sqlTrim content).length ≠ 0)
    (hcl : (sqlTrim content).length ≤ 2000)
    (hab : (sqlTrim author).length ≠ 0)
    (hal : (sqlTrim author).length ≤ 100)
    (hser : st.series.any (fun s => s.id == sid) = true)
    (hep : episodeGuard st sid pep = false)
    (hpar : parentGuard st sid ppar = false)
    (hemail : (sqlTrim (pe.getD "")).length = 0 ∨ emailMatch (sqlTrim (pe.getD "")) = true) :
    create_comment st (some content) (some author) pe (some sid) pep ppar nid now
      = .ok ({ st with comments := st.comments ++
                [{ id := nid, content := sqlTrim content, author_name := sqlTrim author,
                   author_email := normEmail pe, series_id := sid, episode_id := pep,
                   parent_id := ppar, likes_count := 0, created_at := now,
                   updated_at := now }] },
             { id := nid, content := sqlTrim content, author_name := sqlTrim author,
               author_email := normEmail pe, series_id := sid, episode_id := pep,
               parent_id := ppar, likes_count := 0, created_at := now,
               updated_at := now }) := by
  have hcb' : isBlankOpt (some content) = false := by
    simp [isBlankOpt, hcb]
  have hab' : isBlankOpt (some author) = false := by
    simp [isBlankOpt, hab]
  have hser' : (!(st.series.any (fun s => s.id == sid))) = false := by
    simp [hser]
  have hcheck : commentCheckOk
      { id := nid, content := sqlTrim ((some content).getD ""),
        author_name := sqlTrim ((some author).getD ""),
        author_email := normEmail pe, series_id := sid, episode_id := pep,
        parent_id := ppar, likes_count := 0, created_at := now, updated_at := now }
      = true := by
    rw [commentCheckOk_insert (some content) (some author) pe sid nid now pep ppar hcb' hab']
    have h1 : decide ((sqlTrim ((some content).getD "")).length ≤ 2000) = true :=
      decide_eq_true hcl
    have h2 : decide ((sqlTrim ((some author).getD "")).length ≤ 100) = true :=
      decide_eq_true hal
    rw [h1, h2]
    cases pe with
    | none => rfl
    | some e =>
      have hea : emailAccepts (some e) = true := by
        simp only [emailAccepts]
        rcases hemail with he | he
        · simp only [Option.getD] at he
          simp [he]
        · simp only [Option.getD] at he
          simp [he]
      rw [hea]
      rfl
  simp only [create_comment, hcb', hab', hser', hep, hpar, Bool.false_eq_true, if_false,
    hcheck, if_true]
  rfl

/-- Witness for the amended C3: a padded content string, author `"Alex"`,
and a well-formed padded email on the one-series fixture store. -/
theorem create_comment_success_shape_witness :
    ((sqlTrim " Great episode! ").length ≠ 0) ∧
    ((sqlTrim " Great episode! ").length ≤ 2000) ∧
    ((sqlTrim "Alex").length ≠ 0) ∧
    ((sqlTrim "Alex").length ≤ 100) ∧
    (fixStore0.series.any (fun s => s.id == 1) = true) ∧
    create_comment fixStore0 (some " Great episode! ") (some "Alex")
        (some " x@y.org ") (some 1) none none 5 4
      = .ok ({ fixStore0 with comments := fixStore0.comments ++
                [{ id := 5, content := sqlTrim " Great episode! ",
                   author_name := sqlTrim "Alex",
                   author_email := normEmail (some " x@y.org "), series_id := 1,
                   episode_id := none, parent_id := none, likes_count := 0,
                   created_at := 4, updated_at := 4 }] },
             { id := 5, content := sqlTrim " Great episode! ",
               author_name := sqlTrim "Alex",
               author_email := normEmail (some " x@y.org "), series_id := 1,
               episode_id := none, parent_id := none, likes_count := 0,
               created_at := 4, updated_at := 4 }) :=
  ⟨by decide, by decide, by decide, by decide, by decide,
   create_comment_success_shape fixStore0 " Great episode! " "Alex"
     (some " x@y.org ") 1 none none 5 4 (by decide) (by decide) (by decide)
     (by decide) (by decide) (by decide) (by decide) (Or.inr (by decide))⟩

/-- C3 (counterexample): the claim promises success for every non-blank
content and author name on an existing series, but a malformed non-blank
email makes the insert violate the table's email format check, so the call
raises instead of returning a row. -/
theorem create_comment_success_counterexample :
    ((sqlTrim "hi").length ≠ 0) ∧
    ((sqlTrim "Bob").length ≠ 0) ∧
    (fixStore0.series.any (fun s => s.id == 1) = true) ∧
    create_comment fixStore0 (some "hi") (some "Bob") (some "bad-email") (some 1)
        none none 7 4
      = .error "new row for relation comments violates a check constraint" := by
  refine ⟨by decide, by decide, by decide, by rfl⟩
